import Mathlib

/-!
Shallow embedding of the order-lifecycle / cart-to-checkout core of the
Simpleres customer ordering client.

The data model follows `src/types/api.ts`; the cart operations follow the
`OrderProvider` context (`addToCart`, `removeFromCart`,
`updateCartItemQuantity`, `updateCartItemInstructions`, `clearCart`,
`getCartTotal`); the checkout, payment and order-status handlers follow the
`Cart`, `Payment` and `OrderStatus` components.  JavaScript numbers are
modelled as `Int` (the domain values are integer currency amounts and
integer quantities), collaborator (`api.*`) results are injected as
`Except String _` values, and each handler returns its new state together
with the list of collaborator calls it issued.
-/

/-- `OrderStatus` from `src/types/api.ts`:
`'pending' | 'accepted' | 'rejected' | 'preparing' | 'ready' | 'completed'`. -/
inductive OrderStatus where
  | pending
  | accepted
  | rejected
  | preparing
  | ready
  | completed
  deriving DecidableEq, Repr, Fintype

/-- `PaymentMethod` from `src/types/api.ts`: `'cash' | 'pos' | 'transfer'`. -/
inductive PaymentMethod where
  | cash
  | pos
  | transfer
  deriving DecidableEq, Repr, Fintype

/-- `PaymentStatus` from `src/types/api.ts`: `'pending' | 'completed' | 'failed'`. -/
inductive PaymentStatus where
  | pending
  | completed
  | failed
  deriving DecidableEq, Repr, Fintype

/-- `Table` from `src/types/api.ts` (the optional QR/bookkeeping fields are
carried as options). -/
structure Table where
  id : String
  tableNumber : String
  tableName : String
  capacity : Int
  location : String
  deriving DecidableEq, Repr

/-- `MenuItem` from `src/types/api.ts`. -/
structure MenuItem where
  id : String
  name : String
  description : String
  price : Int
  imageUrl : String
  isAvailable : Bool
  preparationTime : Int
  categoryId : String
  deriving DecidableEq, Repr

/-- `CartItem` from the `OrderContext` provider:
`{ menuItem: MenuItem; quantity: number; specialInstructions?: string }`. -/
structure CartItem where
  menuItem : MenuItem
  quantity : Int
  specialInstructions : Option String := none
  deriving DecidableEq, Repr

/-- `OrderItem` from `src/types/api.ts` (the embedded `menuItem` snapshot is
reduced to the fields the client reads). -/
structure OrderItem where
  id : String
  menuItemId : String
  quantity : Int
  price : Int
  subtotal : Int
  specialInstructions : Option String := none
  deriving DecidableEq, Repr

/-- `Order` from `src/types/api.ts`. -/
structure Order where
  id : String
  orderNumber : String
  tableId : String
  status : OrderStatus
  totalAmount : Int
  paymentMethod : String
  paymentStatus : PaymentStatus
  specialInstructions : Option String := none
  items : List OrderItem := []
  deriving DecidableEq, Repr

/-- `PaymentMethodInfo` from `src/types/api.ts`. -/
structure PaymentMethodInfo where
  id : String
  type : PaymentMethod
  name : String
  isActive : Bool
  bankName : Option String := none
  accountNumber : Option String := none
  accountName : Option String := none
  deriving DecidableEq, Repr

/-- `Payment` from `src/types/api.ts`. -/
structure Payment where
  id : String
  orderId : String
  paymentMethod : String
  status : PaymentStatus
  amount : Int
  receiptImageUrl : Option String := none
  deriving DecidableEq, Repr

/-- The collaborator operations the client components invoke, used to record
call traces. -/
inductive ApiCall where
  | getPaymentMethods
  | createOrder
  | getOrderById
  | initiatePayment
  | uploadTransferReceipt
  deriving DecidableEq, Repr

/-! ## Cart Model (`OrderProvider` in the order context file) -/

/-- `addToCart` from the `OrderProvider`: if a line with the same menu-item id
already exists, sum the quantity into it; otherwise append a fresh line.  The
source applies no validation to `quantity`. -/
def addToCart (cart : List CartItem) (item : MenuItem) (quantity : Int := 1) :
    List CartItem :=
  if cart.any (fun ci => ci.menuItem.id == item.id) then
    cart.map (fun ci =>
      if ci.menuItem.id == item.id then
        { ci with quantity := ci.quantity + quantity }
      else ci)
  else
    cart ++ [{ menuItem := item, quantity := quantity }]

/-- `removeFromCart` from the `OrderProvider`. -/
def removeFromCart (cart : List CartItem) (itemId : String) : List CartItem :=
  cart.filter (fun ci => !(ci.menuItem.id == itemId))

/-- `updateCartItemQuantity` from the `OrderProvider`: a non-positive quantity
removes the line, a positive quantity replaces the line's quantity. -/
def updateCartItemQuantity (cart : List CartItem) (itemId : String)
    (quantity : Int) : List CartItem :=
  if quantity ≤ 0 then
    removeFromCart cart itemId
  else
    cart.map (fun ci =>
      if ci.menuItem.id == itemId then { ci with quantity := quantity } else ci)

/-- `updateCartItemInstructions` from the `OrderProvider`. -/
def updateCartItemInstructions (cart : List CartItem) (itemId : String)
    (instructions : String) : List CartItem :=
  cart.map (fun ci =>
    if ci.menuItem.id == itemId then
      { ci with specialInstructions := some instructions }
    else ci)

/-- `clearCart` from the `OrderProvider`. -/
def clearCart (_cart : List CartItem) : List CartItem := []

/-- `getCartTotal` from the `OrderProvider`:
`cartItems.reduce((total, item) => total + item.menuItem.price * item.quantity, 0)`. -/
def getCartTotal (cart : List CartItem) : Int :=
  cart.foldl (fun total item => total + item.menuItem.price * item.quantity) 0

/-- `cartItemCount` from the `Menu` component:
`cartItems.reduce((sum, item) => sum + item.quantity, 0)`. -/
def cartItemCount (cart : List CartItem) : Int :=
  cart.foldl (fun sum item => sum + item.quantity) 0

/-- The menu-item ids of the cart lines, in insertion order. -/
def cartIds (cart : List CartItem) : List String :=
  cart.map (fun ci => ci.menuItem.id)

/-! ## Checkout (`handleCheckout` in the `Cart` component) -/

/-- `CreateOrderRequest` from `src/types/api.ts`. -/
structure CreateOrderRequestItem where
  menuItemId : String
  quantity : Int
  specialInstructions : Option String := none
  deriving DecidableEq, Repr

structure CreateOrderRequest where
  tableId : String
  items : List CreateOrderRequestItem
  paymentMethod : PaymentMethod
  specialInstructions : Option String := none
  deriving DecidableEq, Repr

/-- The slice of the session the `Cart` component's checkout touches: the
bound table, the cart lines and the active order snapshot. -/
structure CheckoutSession where
  table : Option Table
  cartItems : List CartItem
  currentOrder : Option Order
  deriving DecidableEq, Repr

/-- Result of one `handleCheckout` invocation: the session slots it may have
written, the error message it set (`none` when it set none), whether it
navigated on to the payment screen, how many times it invoked `clearCart`,
the request it handed to `api.createOrder` (`none` when none was issued), and
the collaborator calls it made, in order. -/
structure CheckoutResult where
  cartItems : List CartItem
  currentOrder : Option Order
  error : Option String
  navigatedToPayment : Bool
  clearCartCalls : Nat
  requested : Option CreateOrderRequest
  calls : List ApiCall
  deriving DecidableEq, Repr

/-- `activeMethods[0]?.type || 'cash'` from `handleCheckout`. -/
def defaultPaymentMethod (methods : List PaymentMethodInfo) : PaymentMethod :=
  match (methods.filter (fun m => m.isActive)).head? with
  | some m => m.type
  | none => PaymentMethod.cash

/-- `handleCheckout` from the `Cart` component.  `getPaymentMethodsResult`
and `createOrderResult` stand for the collaborator's responses.  The source:
an empty cart returns immediately (before any call); otherwise
`api.getPaymentMethods` is awaited first, then the `CreateOrderRequest` is
built — `table!.id` dereferences the table without a preceding bind check, so
an unbound table throws a `TypeError` inside the `try` block after the
payment-methods call and before `api.createOrder` is invoked; on creation
success the handler stores the order, clears the cart once and navigates to
`/payment`; any caught error is stored via `setError`. -/
def handleCheckout (s : CheckoutSession) (orderNote : String)
    (getPaymentMethodsResult : Except String (List PaymentMethodInfo))
    (createOrderResult : Except String Order) : CheckoutResult :=
  if s.cartItems.length == 0 then
    { cartItems := s.cartItems, currentOrder := s.currentOrder, error := none,
      navigatedToPayment := false, clearCartCalls := 0, requested := none,
      calls := [] }
  else
    match getPaymentMethodsResult with
    | Except.error e =>
      { cartItems := s.cartItems, currentOrder := s.currentOrder,
        error := some e, navigatedToPayment := false, clearCartCalls := 0,
        requested := none, calls := [ApiCall.getPaymentMethods] }
    | Except.ok methods =>
      match s.table with
      | none =>
        { cartItems := s.cartItems, currentOrder := s.currentOrder,
          error := some "Cannot read properties of null (reading 'id')",
          navigatedToPayment := false, clearCartCalls := 0, requested := none,
          calls := [ApiCall.getPaymentMethods] }
      | some t =>
        let req : CreateOrderRequest :=
          { tableId := t.id,
            items := s.cartItems.map (fun ci =>
              { menuItemId := ci.menuItem.id, quantity := ci.quantity,
                specialInstructions := ci.specialInstructions }),
            paymentMethod := defaultPaymentMethod methods,
            specialInstructions :=
              if orderNote == "" then none else some orderNote }
        match createOrderResult with
        | Except.error e =>
          { cartItems := s.cartItems, currentOrder := s.currentOrder,
            error := some e, navigatedToPayment := false, clearCartCalls := 0,
            requested := some req,
            calls := [ApiCall.getPaymentMethods, ApiCall.createOrder] }
        | Except.ok order =>
          { cartItems := [], currentOrder := some order, error := none,
            navigatedToPayment := true, clearCartCalls := 1,
            requested := some req,
            calls := [ApiCall.getPaymentMethods, ApiCall.createOrder] }

/-! ## Payment (`handleInitiatePayment` / `handleUploadReceipt` in the
`Payment` component) -/

/-- The `Payment` component's local state: `paymentInitiated` is the
awaiting-receipt sub-state, `paymentId` the id returned by initiation,
`receiptUrl` the receipt reference input, `navigatedToOrderStatus` records
the `navigate('/order-status', ...)` call that completes the checkout flow. -/
structure PaymentState where
  paymentInitiated : Bool
  paymentId : Option String
  receiptUrl : String
  navigatedToOrderStatus : Bool
  error : Option String
  deriving DecidableEq, Repr

/-- `handleInitiatePayment` from the `Payment` component: no selected method
or no order id returns immediately; otherwise `api.initiatePayment` is
awaited — on success the payment id is stored and a `transfer` method enters
the awaiting-receipt sub-state while `cash`/`pos` navigate straight to the
order-status screen; a failure is stored via `setError`. -/
def handleInitiatePayment (st : PaymentState)
    (selectedPaymentMethod : Option PaymentMethodInfo)
    (orderId : Option String)
    (initiatePaymentResult : Except String Payment) :
    PaymentState × List ApiCall :=
  match selectedPaymentMethod, orderId with
  | some m, some _ =>
    (match initiatePaymentResult with
     | Except.ok payment =>
       if m.type == PaymentMethod.transfer then
         ({ st with error := none, paymentId := some payment.id,
                    paymentInitiated := true }, [ApiCall.initiatePayment])
       else
         ({ st with error := none, paymentId := some payment.id,
                    navigatedToOrderStatus := true }, [ApiCall.initiatePayment])
     | Except.error e =>
       ({ st with error := some e }, [ApiCall.initiatePayment]))
  | _, _ => (st, [])

/-- JavaScript's `String.prototype.trim`, modelled over the character list:
strip leading and trailing whitespace. -/
def jsTrim (s : String) : String :=
  String.mk
    (((s.data.dropWhile Char.isWhitespace).reverse.dropWhile
        Char.isWhitespace).reverse)

/-- `handleUploadReceipt` from the `Payment` component: an empty (or
whitespace-only, per `receiptUrl.trim()`) receipt reference or a missing
payment id returns immediately, before any call; otherwise
`api.uploadTransferReceipt` is awaited — success navigates to the
order-status screen, failure is stored via `setError`. -/
def handleUploadReceipt (st : PaymentState)
    (uploadReceiptResult : Except String Payment) :
    PaymentState × List ApiCall :=
  if jsTrim st.receiptUrl == "" || st.paymentId == none then
    (st, [])
  else
    match uploadReceiptResult with
    | Except.ok _ =>
      ({ st with error := none, navigatedToOrderStatus := true },
       [ApiCall.uploadTransferReceipt])
    | Except.error e =>
      ({ st with error := some e }, [ApiCall.uploadTransferReceipt])

/-! ## Order Lifecycle Tracker (`OrderStatus` component) -/

/-- The `OrderStatus` component's state touched by `loadOrder`: the local
`order` snapshot, the context's `currentOrder`, the error message and the
initial-load flag. -/
structure TrackerState where
  order : Option Order
  currentOrder : Option Order
  error : Option String
  loading : Bool
  deriving DecidableEq, Repr

/-- `loadOrder` from the `OrderStatus` component: unconditionally fetches the
order by id and replaces both snapshots wholesale on success; a failure
stores the message and leaves the previous snapshot in place.  The current
status is never consulted. -/
def loadOrder (st : TrackerState) (getOrderByIdResult : Except String Order) :
    TrackerState × List ApiCall :=
  match getOrderByIdResult with
  | Except.ok orderData =>
    ({ st with order := some orderData, currentOrder := some orderData,
               loading := false }, [ApiCall.getOrderById])
  | Except.error e =>
    ({ st with error := some e, loading := false }, [ApiCall.getOrderById])

/-- One firing of the `setInterval(loadOrder, 5000)` tick installed by the
component's effect: while the effect is mounted (its cleanup
`clearInterval` has not run) the tick runs `loadOrder`; after cleanup the
interval is gone and nothing runs. -/
def pollTick (mounted : Bool) (st : TrackerState)
    (getOrderByIdResult : Except String Order) :
    TrackerState × List ApiCall :=
  if mounted then loadOrder st getOrderByIdResult else (st, [])

/-- The spec's §4.3 status classification: `ready`, `completed` and
`rejected` are terminal, `pending`, `accepted` and `preparing` are active. -/
def isTerminalStatus (s : OrderStatus) : Bool :=
  match s with
  | OrderStatus.ready | OrderStatus.completed | OrderStatus.rejected => true
  | _ => false

/-! ## Progress checklist (`OrderStatus` component status steps) -/

/-- One entry of the status-steps array in the `OrderStatus` component. -/
structure StatusStep where
  status : OrderStatus
  label : String
  deriving DecidableEq, Repr

/-- The status-steps array rendered by the `OrderStatus` component. -/
def statusSteps : List StatusStep :=
  [⟨OrderStatus.pending, "Order Placed"⟩,
   ⟨OrderStatus.accepted, "Order Accepted"⟩,
   ⟨OrderStatus.preparing, "Preparing"⟩,
   ⟨OrderStatus.ready, "Ready"⟩,
   ⟨OrderStatus.completed, "Completed"⟩]

/-- `isActive` from the status-steps map: `order.status === step.status`. -/
def stepIsActive (orderStatus stepStatus : OrderStatus) : Bool :=
  orderStatus == stepStatus

/-- `isCompleted` from the status-steps map, clause for clause. -/
def stepIsCompleted (stepStatus orderStatus : OrderStatus) : Bool :=
  (stepStatus == OrderStatus.pending &&
    [OrderStatus.accepted, OrderStatus.preparing, OrderStatus.ready,
     OrderStatus.completed].contains orderStatus) ||
  (stepStatus == OrderStatus.accepted &&
    [OrderStatus.preparing, OrderStatus.ready,
     OrderStatus.completed].contains orderStatus) ||
  (stepStatus == OrderStatus.preparing &&
    [OrderStatus.ready, OrderStatus.completed].contains orderStatus) ||
  (stepStatus == OrderStatus.ready && orderStatus == OrderStatus.completed) ||
  (stepStatus == OrderStatus.completed && orderStatus == OrderStatus.completed)

/-- The spec's position of a status in the sequence
`pending < accepted < preparing < ready < completed`; `rejected` sits outside
the sequence. -/
def specStatusRank (s : OrderStatus) : Option Nat :=
  match s with
  | OrderStatus.pending => some 0
  | OrderStatus.accepted => some 1
  | OrderStatus.preparing => some 2
  | OrderStatus.ready => some 3
  | OrderStatus.completed => some 4
  | OrderStatus.rejected => none

/-- The spec's "current status is strictly later in the sequence than the
step" predicate. -/
def specStrictlyLater (orderStatus stepStatus : OrderStatus) : Bool :=
  match specStatusRank orderStatus, specStatusRank stepStatus with
  | some a, some b => b < a
  | _, _ => false

/-! ## Operation sequences over the cart (for the cart invariant) -/

/-- The cart-mutating public operations the invariant ranges over. -/
inductive CartOp where
  | add (item : MenuItem) (quantity : Int)
  | setQuantity (itemId : String) (quantity : Int)
  | remove (itemId : String)
  deriving Repr

/-- Apply one cart operation. -/
def applyCartOp (cart : List CartItem) : CartOp → List CartItem
  | CartOp.add item quantity => addToCart cart item quantity
  | CartOp.setQuantity itemId quantity =>
      updateCartItemQuantity cart itemId quantity
  | CartOp.remove itemId => removeFromCart cart itemId

/-- Apply a sequence of cart operations to the initially empty cart. -/
def applyCartOps (ops : List CartOp) : List CartItem :=
  ops.foldl applyCartOp []

/-! ## Concrete fixtures used to instantiate the theorems -/

def sampleTable : Table :=
  { id := "tbl-1", tableNumber := "12", tableName := "Window",
    capacity := 4, location := "Main hall" }

def sampleItem1 : MenuItem :=
  { id := "itm-1", name := "Jollof Rice", description := "Smoky party jollof",
    price := 500, imageUrl := "", isAvailable := true, preparationTime := 15,
    categoryId := "cat-1" }

def sampleItem2 : MenuItem :=
  { id := "itm-2", name := "Grilled Fish", description := "Whole grilled fish",
    price := 1200, imageUrl := "", isAvailable := true, preparationTime := 25,
    categoryId := "cat-1" }

def sampleLine1 : CartItem := { menuItem := sampleItem1, quantity := 2 }

def sampleCart1 : List CartItem := [sampleLine1]

/-- The cart of the spec's worked total example: item priced 500 with
quantity 3, then item priced 1200 with quantity 1. -/
def exampleCart : List CartItem := addToCart (addToCart [] sampleItem1 3) sampleItem2 1

def sampleOrder : Order :=
  { id := "ord-1", orderNumber := "ORD-001", tableId := "tbl-1",
    status := OrderStatus.pending, totalAmount := 2700,
    paymentMethod := "cash", paymentStatus := PaymentStatus.pending }

def sampleCompletedOrder : Order :=
  { sampleOrder with id := "ord-2", orderNumber := "ORD-002",
                     status := OrderStatus.completed }

def sampleCashMethod : PaymentMethodInfo :=
  { id := "pm-1", type := PaymentMethod.cash, name := "Cash", isActive := true }

def sampleTransferMethod : PaymentMethodInfo :=
  { id := "pm-2", type := PaymentMethod.transfer, name := "Bank Transfer",
    isActive := true, bankName := some "First Bank",
    accountNumber := some "0123456789", accountName := some "Resto Ltd" }

def samplePayment : Payment :=
  { id := "pay-1", orderId := "ord-1", paymentMethod := "transfer",
    status := PaymentStatus.pending, amount := 2700 }

/-- A fresh `Payment` screen state with a receipt reference typed in. -/
def paymentState0 : PaymentState :=
  { paymentInitiated := false, paymentId := none,
    receiptUrl := "https://img.example/receipt.png",
    navigatedToOrderStatus := false, error := none }

/-- A `Payment` screen state awaiting a receipt whose typed reference is
whitespace only. -/
def whitespaceReceiptState : PaymentState :=
  { paymentInitiated := true, paymentId := some "pay-1", receiptUrl := "   ",
    navigatedToOrderStatus := false, error := none }

/-- A tracker state holding an order whose status is terminal. -/
def terminalTrackerState : TrackerState :=
  { order := some sampleCompletedOrder, currentOrder := some sampleCompletedOrder,
    error := none, loading := false }

/-! ## Cart lemmas -/

theorem cartIds_map (cart : List CartItem) (f : CartItem → CartItem)
    (h : ∀ ci, (f ci).menuItem.id = ci.menuItem.id) :
    cartIds (cart.map f) = cartIds cart := by
  induction cart with
  | nil => rfl
  | cons a l ih =>
    simp only [cartIds, List.map_cons] at *
    exact congrArg₂ List.cons (h a) ih

theorem cartIds_addToCart_nodup (cart : List CartItem) (item : MenuItem)
    (q : Int) (h : (cartIds cart).Nodup) :
    (cartIds (addToCart cart item q)).Nodup := by
  unfold addToCart
  cases hc : cart.any (fun ci => ci.menuItem.id == item.id) with
  | true =>
    simp only [hc, if_true]
    rw [cartIds_map]
    · exact h
    · intro ci
      split <;> rfl
  | false =>
    simp only [hc, Bool.false_eq_true, if_false]
    have hnotin : item.id ∉ cartIds cart := by
      intro hmem
      rcases List.mem_map.mp hmem with ⟨ci, hci, hid⟩
      have := List.any_eq_false.mp hc ci hci
      simp [hid] at this
    simp only [cartIds, List.map_append, List.map_cons, List.map_nil]
    rw [List.nodup_append]
    refine ⟨h, List.nodup_singleton _, ?_⟩
    intro x hx hx'
    rcases List.mem_singleton.mp hx' with rfl
    exact hnotin hx

theorem cartIds_removeFromCart_nodup (cart : List CartItem) (itemId : String)
    (h : (cartIds cart).Nodup) :
    (cartIds (removeFromCart cart itemId)).Nodup := by
  unfold removeFromCart cartIds
  exact ((List.filter_sublist cart).map _).nodup h

theorem cartIds_updateCartItemQuantity_nodup (cart : List CartItem)
    (itemId : String) (q : Int) (h : (cartIds cart).Nodup) :
    (cartIds (updateCartItemQuantity cart itemId q)).Nodup := by
  unfold updateCartItemQuantity
  split
  · exact cartIds_removeFromCart_nodup cart itemId h
  · rw [cartIds_map]
    · exact h
    · intro ci
      split <;> rfl

theorem cartIds_applyCartOp_nodup (cart : List CartItem) (op : CartOp)
    (h : (cartIds cart).Nodup) :
    (cartIds (applyCartOp cart op)).Nodup := by
  cases op with
  | add item q => exact cartIds_addToCart_nodup cart item q h
  | setQuantity itemId q => exact cartIds_updateCartItemQuantity_nodup cart itemId q h
  | remove itemId => exact cartIds_removeFromCart_nodup cart itemId h

theorem cartIds_foldl_nodup (ops : List CartOp) (cart : List CartItem)
    (h : (cartIds cart).Nodup) :
    (cartIds (ops.foldl applyCartOp cart)).Nodup := by
  induction ops generalizing cart with
  | nil => exact h
  | cons op ops ih =>
    exact ih (applyCartOp cart op) (cartIds_applyCartOp_nodup cart op h)

theorem cart_foldl_add (cart : List CartItem) (g : CartItem → Int) (a : Int) :
    cart.foldl (fun s ci => s + g ci) a = a + (cart.map g).sum := by
  induction cart generalizing a with
  | nil => simp
  | cons x l ih =>
    simp only [List.foldl_cons, List.map_cons, List.sum_cons, ih]
    ring

theorem cartItemCount_eq_sum (cart : List CartItem) :
    cartItemCount cart = (cart.map (fun ci => ci.quantity)).sum := by
  unfold cartItemCount
  simpa using cart_foldl_add cart (fun ci => ci.quantity) 0

theorem getCartTotal_eq_sum (cart : List CartItem) :
    getCartTotal cart =
      (cart.map (fun ci => ci.menuItem.price * ci.quantity)).sum := by
  unfold getCartTotal
  simpa using cart_foldl_add cart (fun ci => ci.menuItem.price * ci.quantity) 0

theorem map_map_congr (cart : List CartItem) (f : CartItem → CartItem)
    {α : Type} (g : CartItem → α) (h : ∀ ci, g (f ci) = g ci) :
    (cart.map f).map g = cart.map g := by
  rw [List.map_map]
  exact List.map_congr_left (fun a _ => h a)

theorem update_instructions_absent (cart : List CartItem)
    (itemId instr : String)
    (h : cart.all (fun ci => !(ci.menuItem.id == itemId)) = true) :
    updateCartItemInstructions cart itemId instr = cart := by
  unfold updateCartItemInstructions
  induction cart with
  | nil => rfl
  | cons a l ih =>
    simp only [List.all_cons, Bool.and_eq_true] at h
    obtain ⟨ha, hl⟩ := h
    have ha' : (a.menuItem.id == itemId) = false := by
      simpa using ha
    simp only [List.map_cons, ha', Bool.false_eq_true, if_false]
    exact congrArg₂ List.cons rfl (ih hl)

/-- C7: for all sequences of `addToCart`, `updateCartItemQuantity` and
`removeFromCart` applied to an initially empty cart, the cart never holds two
lines with the same menu-item id, and the item count equals the sum of all
line quantities. -/
theorem cart_unique_lines_and_count (ops : List CartOp) :
    (cartIds (applyCartOps ops)).Nodup
    ∧ cartItemCount (applyCartOps ops) =
        ((applyCartOps ops).map (fun ci => ci.quantity)).sum :=
  ⟨cartIds_foldl_nodup ops [] (by simp [cartIds]),
   cartItemCount_eq_sum (applyCartOps ops)⟩

/-- C8: `getCartTotal` is the exact integer sum over all lines of unit price
times quantity, zero on the empty cart; on the spec's worked example (500×3
then 1200×1) it is 2700, and 1200 after setting the first item's quantity
to 0. -/
theorem getCartTotal_correct :
    (∀ cart : List CartItem,
      getCartTotal cart =
        (cart.map (fun ci => ci.menuItem.price * ci.quantity)).sum)
    ∧ getCartTotal [] = 0
    ∧ getCartTotal exampleCart = 2700
    ∧ getCartTotal (updateCartItemQuantity exampleCart sampleItem1.id 0) = 1200 :=
  ⟨getCartTotal_eq_sum, rfl, by decide, by decide⟩

/-- C9: `addToCart` performs no validation of its quantity argument — for an
absent item and any `q ≤ 0` it inserts a line holding that non-positive
quantity (hence a quantity below 1), and for a present item it adds `q` to
the existing line's quantity. -/
theorem addToCart_no_validation (cart : List CartItem) (item : MenuItem)
    (q : Int) (hq : q ≤ 0) :
    (cart.any (fun ci => ci.menuItem.id == item.id) = false →
      ∃ ci ∈ addToCart cart item q,
        ci.menuItem.id = item.id ∧ ci.quantity = q ∧ ci.quantity < 1)
    ∧ (∀ ci ∈ cart, ci.menuItem.id = item.id →
      ∃ ci2 ∈ addToCart cart item q,
        ci2.menuItem.id = item.id ∧ ci2.quantity = ci.quantity + q) := by
  constructor
  · intro hc
    refine ⟨{ menuItem := item, quantity := q }, ?_, rfl, rfl,
      by exact lt_of_le_of_lt hq zero_lt_one⟩
    simp [addToCart, hc]
  · intro ci hci hid
    have hc : cart.any (fun ci => ci.menuItem.id == item.id) = true :=
      List.any_eq_true.mpr ⟨ci, hci, by simp [hid]⟩
    refine ⟨{ ci with quantity := ci.quantity + q }, ?_, hid, rfl⟩
    unfold addToCart
    simp only [hc, if_true]
    exact List.mem_map.mpr ⟨ci, hci, by simp [hid]⟩

/-- Witness for C9 at the empty cart, `q = -2`. -/
theorem addToCart_no_validation_witness :
    (-2 : Int) ≤ 0 ∧
    ∃ ci ∈ addToCart [] sampleItem1 (-2),
      ci.menuItem.id = sampleItem1.id ∧ ci.quantity = -2 ∧ ci.quantity < 1 :=
  ⟨by decide, (addToCart_no_validation [] sampleItem1 (-2) (by decide)).1 rfl⟩

/-- C10: `updateCartItemInstructions` changes at most the
`specialInstructions` field of the matching line: the ids in insertion
order, every line's quantity, every line's menu-item snapshot and
`getCartTotal` are unchanged, and an absent item id leaves the cart
identical. -/
theorem updateCartItemInstructions_frame (cart : List CartItem)
    (itemId instr : String) :
    cartIds (updateCartItemInstructions cart itemId instr) = cartIds cart
    ∧ (updateCartItemInstructions cart itemId instr).map (fun ci => ci.quantity)
        = cart.map (fun ci => ci.quantity)
    ∧ (updateCartItemInstructions cart itemId instr).map (fun ci => ci.menuItem)
        = cart.map (fun ci => ci.menuItem)
    ∧ getCartTotal (updateCartItemInstructions cart itemId instr)
        = getCartTotal cart
    ∧ (cart.all (fun ci => !(ci.menuItem.id == itemId)) = true →
        updateCartItemInstructions cart itemId instr = cart) := by
  refine ⟨?_, ?_, ?_, ?_, update_instructions_absent cart itemId instr⟩
  · unfold updateCartItemInstructions
    apply cartIds_map
    intro ci
    split <;> rfl
  · unfold updateCartItemInstructions
    apply map_map_congr
    intro ci
    split <;> rfl
  · unfold updateCartItemInstructions
    apply map_map_congr
    intro ci
    split <;> rfl
  · rw [getCartTotal_eq_sum, getCartTotal_eq_sum]
    apply congrArg List.sum
    unfold updateCartItemInstructions
    apply map_map_congr
    intro ci
    split <;> rfl

/-- Witness for C10 on a concrete cart and an absent item id. -/
theorem updateCartItemInstructions_frame_witness :
    sampleCart1.all (fun ci => !(ci.menuItem.id == "itm-404")) = true
    ∧ updateCartItemInstructions sampleCart1 "itm-404" "extra sauce" = sampleCart1 :=
  ⟨by decide,
   (updateCartItemInstructions_frame sampleCart1 "itm-404" "extra sauce").2.2.2.2
     (by decide)⟩

/-- C1 counterexample: submitting an empty cart does not fail at all — the
handler returns with no error set (so no `ValidationError`) — and with the
table unbound (non-empty cart) `api.getPaymentMethods` is invoked before the
failure, so the failure is not raised before any network call. -/
theorem handleCheckout_guards_counterexample :
    (handleCheckout
        { table := some sampleTable, cartItems := [], currentOrder := none } ""
        (Except.ok [sampleCashMethod]) (Except.ok sampleOrder)).error = none
    ∧ (handleCheckout
        { table := none, cartItems := [sampleLine1], currentOrder := none } ""
        (Except.ok [sampleCashMethod]) (Except.ok sampleOrder)).calls
        = [ApiCall.getPaymentMethods] := by
  exact ⟨rfl, rfl⟩

/-- C1 (amended): on an empty cart, `handleCheckout` returns immediately as
a silent no-op — no error is set and no collaborator call is made; on an
unbound table with a non-empty cart and a successful payment-methods fetch,
`api.getPaymentMethods` is the one collaborator call made, the handler then
fails (the caught null-table `TypeError` is stored as the error) and
`api.createOrder` is never invoked. -/
theorem handleCheckout_guards (s : CheckoutSession) (note : String)
    (pm : Except String (List PaymentMethodInfo)) (co : Except String Order) :
    (s.cartItems = [] →
      handleCheckout s note pm co =
        { cartItems := s.cartItems, currentOrder := s.currentOrder,
          error := none, navigatedToPayment := false, clearCartCalls := 0,
          requested := none, calls := [] })
    ∧ (∀ ms, s.cartItems ≠ [] → s.table = none → pm = Except.ok ms →
        (handleCheckout s note pm co).calls = [ApiCall.getPaymentMethods]
        ∧ (handleCheckout s note pm co).error.isSome = true
        ∧ ApiCall.createOrder ∉ (handleCheckout s note pm co).calls) := by
  constructor
  · intro h
    simp [handleCheckout, h]
  · intro ms hne htab hpm
    subst hpm
    have hlen : s.cartItems.length ≠ 0 := by
      simpa [List.length_eq_zero] using hne
    simp [handleCheckout, hlen, htab]

/-- Witness for C1 (amended) at a concrete empty-cart session and a concrete
unbound-table session. -/
theorem handleCheckout_guards_witness :
    handleCheckout
        { table := some sampleTable, cartItems := [], currentOrder := none } ""
        (Except.ok [sampleCashMethod]) (Except.ok sampleOrder) =
      { cartItems := [], currentOrder := none, error := none,
        navigatedToPayment := false, clearCartCalls := 0, requested := none,
        calls := [] }
    ∧ (handleCheckout
        { table := none, cartItems := [sampleLine1], currentOrder := none } ""
        (Except.ok [sampleCashMethod]) (Except.ok sampleOrder)).error.isSome
        = true := by
  constructor
  · exact (handleCheckout_guards
      { table := some sampleTable, cartItems := [], currentOrder := none } ""
      (Except.ok [sampleCashMethod]) (Except.ok sampleOrder)).1 rfl
  · exact ((handleCheckout_guards
      { table := none, cartItems := [sampleLine1], currentOrder := none } ""
      (Except.ok [sampleCashMethod]) (Except.ok sampleOrder)).2
      [sampleCashMethod] (by simp) rfl rfl).2.1

/-- C2: with a non-empty cart and a bound table, a successful order creation
clears the cart (exactly one `clearCart` call), replaces the active order
snapshot with the created order (so their ids agree) and advances to the
payment stage; a failed creation leaves the cart and the active order
snapshot untouched, with no `clearCart` call and no stage advance. -/
theorem handleCheckout_commit (s : CheckoutSession) (note : String)
    (ms : List PaymentMethodInfo) (o : Order) (e : String) (t : Table)
    (hcart : s.cartItems ≠ []) (htable : s.table = some t) :
    ((handleCheckout s note (Except.ok ms) (Except.ok o)).cartItems = []
     ∧ (handleCheckout s note (Except.ok ms) (Except.ok o)).clearCartCalls = 1
     ∧ (handleCheckout s note (Except.ok ms) (Except.ok o)).currentOrder = some o
     ∧ ((handleCheckout s note (Except.ok ms) (Except.ok o)).currentOrder.map
          Order.id) = some o.id
     ∧ (handleCheckout s note (Except.ok ms) (Except.ok o)).navigatedToPayment
         = true)
    ∧ ((handleCheckout s note (Except.ok ms) (Except.error e)).cartItems
         = s.cartItems
     ∧ (handleCheckout s note (Except.ok ms) (Except.error e)).clearCartCalls = 0
     ∧ (handleCheckout s note (Except.ok ms) (Except.error e)).currentOrder
         = s.currentOrder
     ∧ (handleCheckout s note (Except.ok ms) (Except.error e)).navigatedToPayment
         = false) := by
  have hlen : s.cartItems.length ≠ 0 := by
    simpa [List.length_eq_zero] using hcart
  constructor <;> simp [handleCheckout, hlen, htable]

/-- Witness for C2 at a concrete one-line cart with a bound table, under a
succeeding and under a failing `createOrder`. -/
theorem handleCheckout_commit_witness :
    (handleCheckout
        { table := some sampleTable, cartItems := [sampleLine1],
          currentOrder := none } ""
        (Except.ok [sampleCashMethod]) (Except.ok sampleOrder)).cartItems = []
    ∧ (handleCheckout
        { table := some sampleTable, cartItems := [sampleLine1],
          currentOrder := none } ""
        (Except.ok [sampleCashMethod]) (Except.error "boom")).cartItems
        = [sampleLine1] := by
  constructor
  · exact ((handleCheckout_commit
      { table := some sampleTable, cartItems := [sampleLine1],
        currentOrder := none } ""
      [sampleCashMethod] sampleOrder "boom" sampleTable (by simp) rfl).1).1
  · exact ((handleCheckout_commit
      { table := some sampleTable, cartItems := [sampleLine1],
        currentOrder := none } ""
      [sampleCashMethod] sampleOrder "boom" sampleTable (by simp) rfl).2).1

/-- C3: evaluation at the failing input — `completed` is a terminal status,
yet a mounted tracker's interval tick still runs `loadOrder` and invokes
`api.getOrderById` (the status is never consulted, so polling continues
indefinitely); only detachment (`clearInterval` on cleanup) stops the
refreshes. -/
theorem polling_ignores_terminal_status :
    isTerminalStatus OrderStatus.completed = true
    ∧ (pollTick true terminalTrackerState (Except.ok sampleCompletedOrder)).2
        = [ApiCall.getOrderById]
    ∧ (pollTick false terminalTrackerState (Except.ok sampleCompletedOrder)).2
        = [] := by
  exact ⟨rfl, rfl, rfl⟩

/-- C4 counterexample: with current status `completed`, the checklist's
`completed` step is marked completed (and simultaneously active) although
the current status is not strictly later in the sequence than that step. -/
theorem progress_checklist_counterexample :
    stepIsCompleted OrderStatus.completed OrderStatus.completed = true
    ∧ specStrictlyLater OrderStatus.completed OrderStatus.completed = false
    ∧ stepIsActive OrderStatus.completed OrderStatus.completed = true := by
  decide

/-- C4 (amended): a step is marked completed iff the current status is
strictly later in the sequence `pending < accepted < preparing < ready <
completed`, except the final `completed` step, which is also marked
completed when the status equals `completed`; each of the five in-sequence
statuses marks exactly one step active (the step equal to it) and `rejected`
marks none active; `rejected` marks every step neither completed nor
active. -/
theorem progress_checklist_amended :
    (∀ st : OrderStatus,
      statusSteps.all (fun step =>
        stepIsCompleted step.status st ==
          (specStrictlyLater st step.status ||
            (step.status == OrderStatus.completed
              && st == OrderStatus.completed))) = true)
    ∧ (∀ st : OrderStatus,
        (statusSteps.filter (fun step => stepIsActive st step.status)).length
          = if (specStatusRank st).isSome then 1 else 0)
    ∧ statusSteps.all (fun step =>
        !stepIsCompleted step.status OrderStatus.rejected
        && !stepIsActive OrderStatus.rejected step.status) = true := by
  refine ⟨?_, ?_, ?_⟩ <;> decide

/-- C5: a successful initiation with a `cash` or `pos` method completes the
checkout flow at once and never enters the awaiting-receipt sub-state; with
a `transfer` method it enters awaiting-receipt, stays incomplete under any
upload outcome that is not a success, and completes once the receipt upload
succeeds. -/
theorem payment_method_branch (st : PaymentState) (m : PaymentMethodInfo)
    (oid : String) (p : Payment)
    (hinit : st.paymentInitiated = false)
    (hnav : st.navigatedToOrderStatus = false) :
    ((m.type = PaymentMethod.cash ∨ m.type = PaymentMethod.pos) →
      ((handleInitiatePayment st (some m) (some oid)
          (Except.ok p)).1.navigatedToOrderStatus = true
       ∧ (handleInitiatePayment st (some m) (some oid)
          (Except.ok p)).1.paymentInitiated = false))
    ∧ (m.type = PaymentMethod.transfer →
       ((handleInitiatePayment st (some m) (some oid)
           (Except.ok p)).1.paymentInitiated = true
        ∧ (handleInitiatePayment st (some m) (some oid)
           (Except.ok p)).1.navigatedToOrderStatus = false
        ∧ (∀ r : Except String Payment,
            (handleUploadReceipt
              (handleInitiatePayment st (some m) (some oid) (Except.ok p)).1
              r).1.navigatedToOrderStatus = true →
            ∃ p2, r = Except.ok p2)
        ∧ (jsTrim st.receiptUrl ≠ "" →
            (handleUploadReceipt
              (handleInitiatePayment st (some m) (some oid) (Except.ok p)).1
              (Except.ok p)).1.navigatedToOrderStatus = true))) := by
  constructor
  · rintro (hm | hm) <;> simp [handleInitiatePayment, hm, hinit]
  · intro hm
    have hres : (handleInitiatePayment st (some m) (some oid)
        (Except.ok p)).1 =
        { st with error := none, paymentId := some p.id,
                  paymentInitiated := true } := by
      simp [handleInitiatePayment, hm]
    refine ⟨?_, ?_, ?_, ?_⟩
    · rw [hres]
    · rw [hres]
      exact hnav
    · intro r hr
      rw [hres] at hr
      unfold handleUploadReceipt at hr
      cases hcond : jsTrim st.receiptUrl == "" with
      | true => simp [hcond, hnav] at hr
      | false =>
        cases r with
        | ok p2 => exact ⟨p2, rfl⟩
        | error e2 => simp [hcond, hnav] at hr
    · intro hurl
      have hcond : (jsTrim st.receiptUrl == "") = false := by
        rw [beq_eq_false_iff_ne]
        exact hurl
      rw [hres]
      simp [handleUploadReceipt, hcond]

/-- Witness for C5: the cash branch navigates straight on, the transfer
branch enters awaiting-receipt, at a concrete payment state. -/
theorem payment_method_branch_witness :
    (handleInitiatePayment paymentState0 (some sampleCashMethod) (some "ord-1")
        (Except.ok samplePayment)).1.navigatedToOrderStatus = true
    ∧ (handleInitiatePayment paymentState0 (some sampleTransferMethod)
        (some "ord-1") (Except.ok samplePayment)).1.paymentInitiated = true := by
  constructor
  · exact ((payment_method_branch paymentState0 sampleCashMethod "ord-1"
      samplePayment rfl rfl).1 (Or.inl rfl)).1
  · exact ((payment_method_branch paymentState0 sampleTransferMethod "ord-1"
      samplePayment rfl rfl).2 rfl).1

/-- C6 counterexample: a whitespace-only receipt reference makes the upload
handler return as a silent no-op — the state is unchanged, no error is set
(so no `ValidationError` is raised) and no collaborator call is made. -/
theorem uploadReceipt_whitespace_counterexample :
    handleUploadReceipt whitespaceReceiptState (Except.ok samplePayment)
      = (whitespaceReceiptState, [])
    ∧ (handleUploadReceipt whitespaceReceiptState
        (Except.ok samplePayment)).1.error = none := by
  exact ⟨rfl, rfl⟩

/-- C6 (amended): for every receipt reference that is empty or whitespace
only, the upload handler returns before any collaborator call —
`api.uploadTransferReceipt` is never invoked — but it does not fail with a
`ValidationError`: it is a silent no-op leaving the state unchanged. -/
theorem uploadReceipt_whitespace_noop (st : PaymentState)
    (r : Except String Payment) (h : jsTrim st.receiptUrl = "") :
    handleUploadReceipt st r = (st, []) := by
  unfold handleUploadReceipt
  simp [h]

/-- Witness for C6 (amended) at a concrete whitespace receipt reference. -/
theorem uploadReceipt_whitespace_noop_witness :
    jsTrim whitespaceReceiptState.receiptUrl = ""
    ∧ handleUploadReceipt whitespaceReceiptState (Except.error "net down")
        = (whitespaceReceiptState, []) :=
  ⟨by decide, uploadReceipt_whitespace_noop whitespaceReceiptState
      (Except.error "net down") (by decide)⟩
